import Mathlib

/-!
Shallow embedding of `jsonapi/asyncio/handler/relationship.py` — the
`RelationshipHandler` class of the py-jsonapi library.

Resources are opaque (a type parameter `R`).  External collaborators
(type registry, schema, serializer, unserializer, persistence gateway,
payload validator, URL reverser, JSON encoder) are modelled as abstract
functions bundled in structures, mirroring the interfaces the handler
calls.  Response documents are Python `OrderedDict`s, modelled as
insertion-ordered association lists with Python's assignment and
`setdefault` semantics.  Side effects of a method handler (unserializer
mutation, `db.save`, `db.commit`, body building) are recorded both as
explicit result fields and as an event trace in source order, so that
ordering and frame claims are statable.
-/

namespace Jsonapi

/-- A JSON value, as produced by the serializer and `dump_json`. -/
inductive JVal where
  | null : JVal
  | str : String → JVal
  | num : Int → JVal
  | obj : List (String × JVal) → JVal
  | arr : List JVal → JVal

/-- An ordered mapping (Python `OrderedDict`): insertion-ordered key/value list. -/
abbrev Doc := List (String × JVal)

/-- First-match key lookup, as in a Python dict (keys are unique there). -/
def lookupKey : Doc → String → Option JVal
  | [], _ => none
  | (k, v) :: rest, key => if k = key then some v else lookupKey rest key

/-- Whether the key is present (`key in d`). -/
def hasKey : Doc → String → Bool
  | [], _ => false
  | (k, _) :: rest, key => k = key || hasKey rest key

/-- Replace the value stored under `key`, keeping its insertion position. -/
def replaceKey : Doc → String → JVal → Doc
  | [], _, _ => []
  | (k, w) :: rest, key, v =>
      if k = key then (key, v) :: replaceKey rest key v
      else (k, w) :: replaceKey rest key v

/-- Python `d[key] = v`: overwrite in place if present, else append at the end. -/
def setItem (d : Doc) (key : String) (v : JVal) : Doc :=
  if hasKey d key then replaceKey d key v else d ++ [(key, v)]

/-- Python `d.setdefault(key, v)` restricted to the mapping result:
the mapping is unchanged when the key is present, else `(key, v)` is appended. -/
def setdefaultDoc (d : Doc) (key : String) (v : JVal) : Doc :=
  match lookupKey d key with
  | some _ => d
  | none => d ++ [(key, v)]

/-- A relationship descriptor from the schema: its essential attribute
is the cardinality flag `to_many`. -/
structure RelDescriptor where
  to_many : Bool

/-- A schema: `schema.relationships` maps a relationship name to its
descriptor when declared (`relname in schema.relationships`). -/
structure Schema where
  relationships : String → Option RelDescriptor

/-- External serializer: `serializer.serialize_relationship(resource, relname)`. -/
structure Serializer (R : Type) where
  serialize_relationship : R → String → Doc

/-- External unserializer.  In the source, `extend_relationship` and
`update_relationship` mutate the resource in place (given the db, the
resource, the relname and the relationship object); `clear_relationship`
is a local mutation.  Modelled as resource transformers. -/
structure Unserializer (R : Type) where
  extend_relationship : R → String → JVal → R
  update_relationship : R → String → JVal → R
  clear_relationship : R → String → R

/-- The `api` collaborator consumed by the handler. -/
structure Api (R : Type) where
  has_type : String → Bool
  get_typename : R → String
  get_schema : String → Schema
  get_serializer : String → Serializer R
  get_unserializer : String → Unserializer R
  /-- Models `api.reverse_url(typename=…, endpoint=…, id=…, relname=…)`. -/
  reverse_url : String → String → String → String → String
  jsonapi_object : JVal
  dump_json : Doc → String

/-- The persistence gateway's read side: `db.get((typename, id))`. -/
structure Db (R : Type) where
  get : String × String → Option R

/-- Environment of one request: the api, the db, and the module-level
`validators.assert_relationship_object` check (`true` = payload passes). -/
structure Env (R : Type) where
  api : Api R
  db : Db R
  assert_relationship_object : JVal → Bool

/-- The inbound request, with the parsed content type pair
(`request.content_type[0]` is the main media type), the URI arguments
`type`, `id`, `relname`, and the decoded JSON payload `request.json`. -/
structure Request where
  content_type : String × List String
  uri_type : String
  uri_id : String
  uri_relname : String
  json : JVal

/-- The error kinds raised by the handler (module `jsonapi.base.errors`,
plus the validation error raised by `assert_relationship_object`). -/
inductive Err where
  | UnsupportedMediaType : Err
  | NotFound : Err
  | MethodNotAllowed : Err
  | ValidationError : Err
deriving DecidableEq

/-- The handler state after `prepare()` succeeded: the bound URI triple,
the loaded resource, its actual typename, and the resolved descriptor. -/
structure Prepared (R : Type) where
  typename : String
  relname : String
  resource_id : String
  resource : R
  real_typename : String
  relationship : RelDescriptor

/-- Collaborator calls made by `prepare()`, in source order. -/
inductive PrepEvent where
  | has_type_call : PrepEvent
  | db_get_call : PrepEvent
  | get_typename_call : PrepEvent
  | get_schema_call : PrepEvent
deriving DecidableEq

/-- Result of `prepare()`: the outcome and the trace of collaborator calls. -/
structure PrepResult (R : Type) where
  result : Except Err (Prepared R)
  trace : List PrepEvent

/-- Embeds `RelationshipHandler.prepare()`: content-type check, type-registry
check, resource load, actual-typename resolution, relationship lookup —
in that order, failing fast. -/
def prepare {R : Type} (env : Env R) (req : Request) : PrepResult R :=
  if req.content_type.1 ≠ "application/vnd.api+json" then
    { result := .error .UnsupportedMediaType, trace := [] }
  else if env.api.has_type req.uri_type = false then
    { result := .error .NotFound, trace := [.has_type_call] }
  else
    match env.db.get (req.uri_type, req.uri_id) with
    | none =>
        { result := .error .NotFound, trace := [.has_type_call, .db_get_call] }
    | some resource =>
        let real_typename := env.api.get_typename resource
        let schema := env.api.get_schema real_typename
        match schema.relationships req.uri_relname with
        | none =>
            { result := .error .NotFound,
              trace := [.has_type_call, .db_get_call, .get_typename_call,
                        .get_schema_call] }
        | some rel =>
            { result := .ok { typename := req.uri_type, relname := req.uri_relname,
                              resource_id := req.uri_id, resource := resource,
                              real_typename := real_typename, relationship := rel },
              trace := [.has_type_call, .db_get_call, .get_typename_call,
                        .get_schema_call] }

/-- The `links` submapping of a serializer-produced document, as the
source aliases it (`links = document.setdefault("links", OrderedDict())`):
the existing mapping when present, else a fresh empty one.  A present
non-mapping value makes the source raise `TypeError` on the subsequent
item assignment; that branch is modelled as the empty mapping and is
excluded by `linksOk` where it matters. -/
def serializer_links (d : Doc) : Doc :=
  match lookupKey d "links" with
  | some (JVal.obj l) => l
  | some _ => []
  | none => []

/-- The serializer output the response is built from:
`serializer.serialize_relationship(self.resource, self.relname)` for the
serializer of `real_typename`. -/
def serializer_document {R : Type} (api : Api R) (p : Prepared R) : Doc :=
  (api.get_serializer p.real_typename).serialize_relationship p.resource p.relname

/-- Embeds `RelationshipHandler.build_body()` up to JSON encoding: serialize the
relationship, `links = document.setdefault("links", OrderedDict())`, then
the in-place assignments `links["self"] = …` and `links["related"] = …`
(both reversed from the originally requested typename), then
`document.setdefault("jsonapi", …)`. -/
def build_document {R : Type} (api : Api R) (p : Prepared R) : Doc :=
  let doc := serializer_document api p
  let links0 : Doc := serializer_links doc
  let links1 := setItem links0 "self"
      (JVal.str (api.reverse_url p.typename "relationship" p.resource_id p.relname))
  let links2 := setItem links1 "related"
      (JVal.str (api.reverse_url p.typename "related" p.resource_id p.relname))
  let doc1 := setItem doc "links" (JVal.obj links2)
  setdefaultDoc doc1 "jsonapi" api.jsonapi_object

/-- Whether the serializer-produced document is one the source can
process: a `"links"` entry, when present, is a mapping. -/
def linksOk (d : Doc) : Bool :=
  match lookupKey d "links" with
  | some (JVal.obj _) => true
  | some _ => false
  | none => true

/-- Embeds `build_body` proper: the encoded document. -/
def build_body {R : Type} (api : Api R) (p : Prepared R) : String :=
  api.dump_json (build_document api p)

/-- Side-effecting steps of a method handler, in source order. -/
inductive Event where
  | validate_payload : Event
  | extend_rel : Event
  | update_rel : Event
  | clear_rel : Event
  | db_save : Event
  | db_commit : Event
  | build_response_body : Event
deriving DecidableEq

/-- The outbound response object: status code, `content-type` header, body. -/
structure Response where
  status_code : Nat
  content_type : String
  body : String

/-- Observable outcome of running one method handler: the response or the
raised error, the handler's in-memory resource afterwards, the resources
passed to `db.save`, the number of `db.commit` calls, and the event trace. -/
structure RunResult (R : Type) where
  result : Except Err Response
  resource : R
  saved : List R
  commits : Nat
  trace : List Event

/-- Embeds `RelationshipHandler.get()`: headers, status 200, body from `build_body`.
No validation, no unserializer call, no save, no commit. -/
def get_handler {R : Type} (env : Env R) (p : Prepared R) : RunResult R :=
  { result := .ok { status_code := 200,
                    content_type := "application/vnd.api+json",
                    body := build_body env.api p },
    resource := p.resource, saved := [], commits := 0,
    trace := [.build_response_body] }

/-- Embeds `RelationshipHandler.post()`: to-many check first, then payload
validation, then `extend_relationship`, then `db.save([resource])`,
then `db.commit()`, then the response. -/
def post_handler {R : Type} (env : Env R) (req : Request) (p : Prepared R) :
    RunResult R :=
  if p.relationship.to_many = false then
    { result := .error .MethodNotAllowed, resource := p.resource,
      saved := [], commits := 0, trace := [] }
  else if env.assert_relationship_object req.json = false then
    { result := .error .ValidationError, resource := p.resource,
      saved := [], commits := 0, trace := [.validate_payload] }
  else
    let uns := env.api.get_unserializer p.real_typename
    let resource := uns.extend_relationship p.resource p.relname req.json
    { result := .ok { status_code := 200,
                      content_type := "application/vnd.api+json",
                      body := build_body env.api { p with resource := resource } },
      resource := resource, saved := [resource], commits := 1,
      trace := [.validate_payload, .extend_rel, .db_save, .db_commit,
                .build_response_body] }

/-- Embeds `RelationshipHandler.patch()`: payload validation, then
`update_relationship`, then save, commit, response.  No cardinality check. -/
def patch_handler {R : Type} (env : Env R) (req : Request) (p : Prepared R) :
    RunResult R :=
  if env.assert_relationship_object req.json = false then
    { result := .error .ValidationError, resource := p.resource,
      saved := [], commits := 0, trace := [.validate_payload] }
  else
    let uns := env.api.get_unserializer p.real_typename
    let resource := uns.update_relationship p.resource p.relname req.json
    { result := .ok { status_code := 200,
                      content_type := "application/vnd.api+json",
                      body := build_body env.api { p with resource := resource } },
      resource := resource, saved := [resource], commits := 1,
      trace := [.validate_payload, .update_rel, .db_save, .db_commit,
                .build_response_body] }

/-- Embeds `RelationshipHandler.delete()`: `clear_relationship`, then save,
commit, response.  No payload is read, no cardinality check. -/
def delete_handler {R : Type} (env : Env R) (p : Prepared R) : RunResult R :=
  let uns := env.api.get_unserializer p.real_typename
  let resource := uns.clear_relationship p.resource p.relname
  { result := .ok { status_code := 200,
                    content_type := "application/vnd.api+json",
                    body := build_body env.api { p with resource := resource } },
    resource := resource, saved := [resource], commits := 1,
    trace := [.clear_rel, .db_save, .db_commit, .build_response_body] }

/-- The temporal shape of one mutating method on its success path: the
unserializer mutation `mu` strictly precedes `db.save`, which strictly
precedes `db.commit`, which strictly precedes building the response body,
and none of the four steps is skipped. -/
def ordered_mutation_flow (mu : Event) (t : List Event) : Prop :=
  t.indexOf mu < t.indexOf .db_save ∧
  t.indexOf .db_save < t.indexOf .db_commit ∧
  t.indexOf .db_commit < t.indexOf .build_response_body ∧
  mu ∈ t ∧ Event.db_save ∈ t ∧ Event.db_commit ∈ t ∧
  Event.build_response_body ∈ t

/-! ### A concrete environment (articles with to-many `comments` and
to-one `author`), used by the witnesses and the counterexample.
Resources are natural numbers. -/

/-- Concrete schema: `comments` is to-many, `author` is to-one. -/
def cSchema : Schema :=
  { relationships := fun n =>
      if n = "comments" then some { to_many := true }
      else if n = "author" then some { to_many := false }
      else none }

/-- Concrete serializer output: a `data` key and a `links` mapping that
already carries a `self` entry, to probe the overwrite behaviour. -/
def cSerializer : Serializer Nat :=
  { serialize_relationship := fun _ _ =>
      [("data", JVal.arr []),
       ("links", JVal.obj [("self", JVal.str "serializer-self")])] }

/-- Concrete unserializer on `Nat` resources; `clear_relationship` is
constant, hence idempotent. -/
def cUnserializer : Unserializer Nat :=
  { extend_relationship := fun r _ _ => r + 1
    update_relationship := fun r _ _ => r + 2
    clear_relationship := fun _ _ => 0 }

/-- Concrete api. -/
def cApi : Api Nat :=
  { has_type := fun t => t = "article"
    get_typename := fun _ => "article"
    get_schema := fun _ => cSchema
    get_serializer := fun _ => cSerializer
    get_unserializer := fun _ => cUnserializer
    reverse_url := fun tn ep id rel => tn ++ "/" ++ id ++ "/" ++ ep ++ "/" ++ rel
    jsonapi_object := JVal.obj [("version", JVal.str "1.0")]
    dump_json := fun d => match lookupKey d "links" with
      | some (JVal.obj _) => "doc-with-links"
      | _ => "doc" }

/-- Concrete db: one article with id `"1"`, stored as the number `7`. -/
def cDb : Db Nat :=
  { get := fun k => if k.1 = "article" ∧ k.2 = "1" then some 7 else none }

/-- Concrete environment; a payload passes validation iff it is an object. -/
def cEnv : Env Nat :=
  { api := cApi, db := cDb
    assert_relationship_object := fun v =>
      match v with
      | JVal.obj _ => true
      | _ => false }

/-- A well-formed request addressing the to-many `comments` relationship. -/
def cReq : Request :=
  { content_type := ("application/vnd.api+json", ["charset=utf-8"])
    uri_type := "article", uri_id := "1", uri_relname := "comments"
    json := JVal.obj [("data", JVal.arr [])] }

/-- The prepared state reached from `cEnv`/`cReq`. -/
def cPrepared : Prepared Nat :=
  { typename := "article", relname := "comments", resource_id := "1"
    resource := 7, real_typename := "article"
    relationship := { to_many := true } }

/-- The prepared state for the to-one `author` relationship. -/
def cPreparedToOne : Prepared Nat :=
  { typename := "article", relname := "author", resource_id := "1"
    resource := 7, real_typename := "article"
    relationship := { to_many := false } }

/-- The request `cReq` with a non-JSON:API content type. -/
def cReqBadCT : Request := { cReq with content_type := ("text/html", []) }

/-- The request `cReq` addressed at a typename the registry does not know. -/
def cReqUnknownType : Request := { cReq with uri_type := "person" }

/-- The request `cReq` addressed at an id for which `db.get` finds nothing. -/
def cReqMissing : Request := { cReq with uri_id := "2" }

/-- The request `cReq` addressed at an undeclared relationship name. -/
def cReqBadRel : Request := { cReq with uri_relname := "nope" }

/-! ### Lemmas on the ordered-mapping operations -/

theorem lookupKey_append (d e : Doc) (k : String) :
    lookupKey (d ++ e) k =
      match lookupKey d k with
      | some v => some v
      | none => lookupKey e k := by
  induction d with
  | nil => simp [lookupKey]
  | cons hd tl ih =>
    obtain ⟨k1, v1⟩ := hd
    by_cases h : k1 = k
    · simp [lookupKey, h]
    · simp [lookupKey, h, ih]

theorem lookupKey_of_hasKey_false {d : Doc} {k : String} (h : hasKey d k = false) :
    lookupKey d k = none := by
  induction d with
  | nil => simp [lookupKey]
  | cons hd tl ih =>
    obtain ⟨k1, v1⟩ := hd
    simp only [hasKey, Bool.or_eq_false_iff, decide_eq_false_iff_not] at h
    simp [lookupKey, h.1, ih h.2]

theorem lookupKey_replaceKey_self {d : Doc} {k : String} (v : JVal)
    (h : hasKey d k = true) : lookupKey (replaceKey d k v) k = some v := by
  induction d with
  | nil => simp [hasKey] at h
  | cons hd tl ih =>
    obtain ⟨k1, v1⟩ := hd
    by_cases h1 : k1 = k
    · simp [replaceKey, h1, lookupKey]
    · simp only [hasKey, Bool.or_eq_true, decide_eq_true_eq] at h
      rcases h with h | h
      · exact absurd h h1
      · simp [replaceKey, h1, lookupKey, ih h]

theorem lookupKey_replaceKey_ne {d : Doc} {k k2 : String} (v : JVal)
    (h : k2 ≠ k) : lookupKey (replaceKey d k v) k2 = lookupKey d k2 := by
  induction d with
  | nil => simp [replaceKey]
  | cons hd tl ih =>
    obtain ⟨k1, v1⟩ := hd
    by_cases h1 : k1 = k
    · have : k ≠ k2 := fun hk => h hk.symm
      simp [replaceKey, h1, lookupKey, this, ih]
    · simp [replaceKey, h1, lookupKey, ih]

theorem lookupKey_setItem_self (d : Doc) (k : String) (v : JVal) :
    lookupKey (setItem d k v) k = some v := by
  unfold setItem
  cases h : hasKey d k with
  | true => simp [lookupKey_replaceKey_self v h]
  | false =>
    simp only [Bool.false_eq_true, if_false]
    rw [lookupKey_append, lookupKey_of_hasKey_false h]
    simp [lookupKey]

theorem lookupKey_setItem_ne (d : Doc) {k k2 : String} (v : JVal) (h : k2 ≠ k) :
    lookupKey (setItem d k v) k2 = lookupKey d k2 := by
  unfold setItem
  cases hk : hasKey d k with
  | true => simp [lookupKey_replaceKey_ne v h]
  | false =>
    simp only [Bool.false_eq_true, if_false]
    rw [lookupKey_append]
    have : k ≠ k2 := fun hk2 => h hk2.symm
    cases hd : lookupKey d k2 <;> simp [lookupKey, this]

theorem lookupKey_setdefaultDoc_self (d : Doc) (k : String) (v : JVal) :
    lookupKey (setdefaultDoc d k v) k = some ((lookupKey d k).getD v) := by
  unfold setdefaultDoc
  cases h : lookupKey d k with
  | some w => simp [h]
  | none => rw [lookupKey_append, h]; simp [lookupKey]

theorem lookupKey_setdefaultDoc_ne (d : Doc) {k k2 : String} (v : JVal)
    (h : k2 ≠ k) : lookupKey (setdefaultDoc d k v) k2 = lookupKey d k2 := by
  unfold setdefaultDoc
  cases hd : lookupKey d k with
  | some w => rfl
  | none =>
    rw [lookupKey_append]
    have : k ≠ k2 := fun hk2 => h hk2.symm
    cases hd2 : lookupKey d k2 <;> simp [lookupKey, this]

/-! ### Claim theorems -/

example : (prepare cEnv cReq).result = .ok cPrepared := by rfl

example : build_document cApi cPrepared =
    [("data", JVal.arr []),
     ("links", JVal.obj
        [("self", JVal.str "article/1/relationship/comments"),
         ("related", JVal.str "article/1/related/comments")]),
     ("jsonapi", JVal.obj [("version", JVal.str "1.0")])] := by rfl

/-- C3: on a prepared request whose relationship is to-one
(`to_many = false`), `post()` raises `MethodNotAllowed` with no payload
validation, no unserializer call, no save, no commit: the in-memory
resource is unchanged, nothing is saved or committed, and the event trace
is empty. -/
theorem post_to_one_method_not_allowed {R : Type} (env : Env R) (req : Request)
    (p : Prepared R) (h : p.relationship.to_many = false) :
    post_handler env req p =
      { result := .error .MethodNotAllowed, resource := p.resource,
        saved := [], commits := 0, trace := [] } := by
  simp [post_handler, h]

/-- Witness for C3 at the concrete to-one `author` relationship. -/
theorem post_to_one_method_not_allowed_witness :
    cPreparedToOne.relationship.to_many = false ∧
    post_handler cEnv cReq cPreparedToOne =
      { result := .error .MethodNotAllowed, resource := cPreparedToOne.resource,
        saved := [], commits := 0, trace := [] } :=
  ⟨rfl, post_to_one_method_not_allowed cEnv cReq cPreparedToOne rfl⟩

/-- C5: `patch()` and `delete()` never inspect the resolved relationship
descriptor (their outcome is unchanged under any replacement of it, in
particular of `to_many`), never raise `MethodNotAllowed`, and run to
completion for any cardinality: `delete()` always succeeds, and `patch()`
succeeds whenever the payload passes validation. -/
theorem patch_delete_ignore_cardinality {R : Type} (env : Env R) (req : Request)
    (p : Prepared R) (d : RelDescriptor) :
    patch_handler env req { p with relationship := d } = patch_handler env req p ∧
    (patch_handler env req p).result ≠ .error .MethodNotAllowed ∧
    (env.assert_relationship_object req.json = true →
      ∃ resp, (patch_handler env req p).result = .ok resp) ∧
    delete_handler env { p with relationship := d } = delete_handler env p ∧
    (delete_handler env p).result ≠ .error .MethodNotAllowed ∧
    ∃ resp, (delete_handler env p).result = .ok resp := by
  refine ⟨rfl, ?_, ?_, rfl, ?_, ?_⟩
  · cases h : env.assert_relationship_object req.json <;> simp [patch_handler, h]
  · intro h
    exact ⟨_, by unfold patch_handler; rw [h]; rfl⟩
  · simp [delete_handler]
  · exact ⟨_, rfl⟩

/-- Witness for C5 at the concrete environment, flipping the descriptor
of the to-one `author` relationship to to-many. -/
theorem patch_delete_ignore_cardinality_witness :
    cEnv.assert_relationship_object cReq.json = true ∧
    (patch_handler cEnv cReq { cPreparedToOne with
        relationship := { to_many := true } } =
      patch_handler cEnv cReq cPreparedToOne ∧
    (patch_handler cEnv cReq cPreparedToOne).result ≠ .error .MethodNotAllowed ∧
    (cEnv.assert_relationship_object cReq.json = true →
      ∃ resp, (patch_handler cEnv cReq cPreparedToOne).result = .ok resp) ∧
    delete_handler cEnv { cPreparedToOne with
        relationship := { to_many := true } } =
      delete_handler cEnv cPreparedToOne ∧
    (delete_handler cEnv cPreparedToOne).result ≠ .error .MethodNotAllowed ∧
    ∃ resp, (delete_handler cEnv cPreparedToOne).result = .ok resp) :=
  ⟨rfl, patch_delete_ignore_cardinality cEnv cReq cPreparedToOne { to_many := true }⟩

/-- C8: `get()` has no persistence side effects: nothing is passed to
`db.save`, `db.commit` is never called, the in-memory resource is
unchanged, and the only traced step is building the response body (no
validation, no unserializer call). -/
theorem get_has_no_persistence_effects {R : Type} (env : Env R) (p : Prepared R) :
    (get_handler env p).saved = [] ∧
    (get_handler env p).commits = 0 ∧
    (get_handler env p).resource = p.resource ∧
    (get_handler env p).trace = [.build_response_body] :=
  ⟨rfl, rfl, rfl, rfl⟩

/-- C6: within any POST, PATCH or DELETE request on its success path, the
unserializer mutation strictly precedes `db.save`, which strictly precedes
`db.commit`, which strictly precedes building the response body, and no
step is skipped. -/
theorem mutate_save_commit_respond_in_order {R : Type} (env : Env R)
    (req : Request) (p : Prepared R) :
    (p.relationship.to_many = true → env.assert_relationship_object req.json = true →
      ordered_mutation_flow .extend_rel (post_handler env req p).trace) ∧
    (env.assert_relationship_object req.json = true →
      ordered_mutation_flow .update_rel (patch_handler env req p).trace) ∧
    ordered_mutation_flow .clear_rel (delete_handler env p).trace := by
  refine ⟨?_, ?_, ?_⟩
  · intro h1 h2
    have ht : (post_handler env req p).trace =
        [.validate_payload, .extend_rel, .db_save, .db_commit,
         .build_response_body] := by
      unfold post_handler; rw [h1, h2]; rfl
    simp only [ordered_mutation_flow, ht]
    decide
  · intro h2
    have ht : (patch_handler env req p).trace =
        [.validate_payload, .update_rel, .db_save, .db_commit,
         .build_response_body] := by
      unfold patch_handler; rw [h2]; rfl
    simp only [ordered_mutation_flow, ht]
    decide
  · have ht : (delete_handler env p).trace =
        [.clear_rel, .db_save, .db_commit, .build_response_body] := rfl
    simp only [ordered_mutation_flow, ht]
    decide

/-- Witness for C6 at the concrete to-many `comments` relationship. -/
theorem mutate_save_commit_respond_in_order_witness :
    cPrepared.relationship.to_many = true ∧
    cEnv.assert_relationship_object cReq.json = true ∧
    ordered_mutation_flow .extend_rel (post_handler cEnv cReq cPrepared).trace ∧
    ordered_mutation_flow .update_rel (patch_handler cEnv cReq cPrepared).trace ∧
    ordered_mutation_flow .clear_rel (delete_handler cEnv cPrepared).trace := by
  have h := mutate_save_commit_respond_in_order cEnv cReq cPrepared
  exact ⟨rfl, rfl, h.1 rfl rfl, h.2.1 rfl, h.2.2⟩

/-- C7: on the success path of each method, the status code is exactly
200, the `content-type` header value is exactly
`application/vnd.api+json`, and the body is the JSON-encoded document
produced by the response builder (for the mutating methods, built from
the mutated resource). -/
theorem success_response_status_and_body {R : Type} (env : Env R)
    (req : Request) (p : Prepared R) :
    (get_handler env p).result =
      .ok { status_code := 200, content_type := "application/vnd.api+json",
            body := env.api.dump_json (build_document env.api p) } ∧
    (p.relationship.to_many = true → env.assert_relationship_object req.json = true →
      (post_handler env req p).result =
        .ok { status_code := 200, content_type := "application/vnd.api+json",
              body := env.api.dump_json (build_document env.api { p with resource := (env.api.get_unserializer p.real_typename).extend_relationship p.resource p.relname req.json }) }) ∧
    (env.assert_relationship_object req.json = true →
      (patch_handler env req p).result =
        .ok { status_code := 200, content_type := "application/vnd.api+json",
              body := env.api.dump_json (build_document env.api { p with resource := (env.api.get_unserializer p.real_typename).update_relationship p.resource p.relname req.json }) }) ∧
    (delete_handler env p).result =
      .ok { status_code := 200, content_type := "application/vnd.api+json",
            body := env.api.dump_json (build_document env.api { p with resource := (env.api.get_unserializer p.real_typename).clear_relationship p.resource p.relname }) } := by
  refine ⟨rfl, ?_, ?_, rfl⟩
  · intro h1 h2
    unfold post_handler; rw [h1, h2]; rfl
  · intro h2
    unfold patch_handler; rw [h2]; rfl

/-- Witness for C7 at the concrete to-many `comments` relationship. -/
theorem success_response_status_and_body_witness :
    cPrepared.relationship.to_many = true ∧
    cEnv.assert_relationship_object cReq.json = true ∧
    (get_handler cEnv cPrepared).result =
      .ok { status_code := 200, content_type := "application/vnd.api+json",
            body := cEnv.api.dump_json (build_document cEnv.api cPrepared) } ∧
    (post_handler cEnv cReq cPrepared).result =
      .ok { status_code := 200, content_type := "application/vnd.api+json",
            body := cEnv.api.dump_json (build_document cEnv.api { cPrepared with resource := (cEnv.api.get_unserializer cPrepared.real_typename).extend_relationship cPrepared.resource cPrepared.relname cReq.json }) } := by
  have h := success_response_status_and_body cEnv cReq cPrepared
  exact ⟨rfl, rfl, h.1, h.2.1 rfl rfl⟩

/-- C2: `prepare()` raises `UnsupportedMediaType` on a content-type
mismatch before consulting any collaborator; otherwise it raises
`NotFound` for an unregistered typename (before touching the db), for a
missing resource, or for a relationship name not declared on the
resource's actual type — in exactly that order, as the collaborator-call
traces show; on success it raises nothing and stores the resolved
relationship descriptor. -/
theorem prepare_checks_in_order {R : Type} (env : Env R) (req : Request) :
    (req.content_type.1 ≠ "application/vnd.api+json" →
      prepare env req =
        { result := .error .UnsupportedMediaType, trace := [] }) ∧
    (req.content_type.1 = "application/vnd.api+json" →
     env.api.has_type req.uri_type = false →
      prepare env req =
        { result := .error .NotFound, trace := [.has_type_call] }) ∧
    (req.content_type.1 = "application/vnd.api+json" →
     env.api.has_type req.uri_type = true →
     env.db.get (req.uri_type, req.uri_id) = none →
      prepare env req =
        { result := .error .NotFound,
          trace := [.has_type_call, .db_get_call] }) ∧
    (∀ r, req.content_type.1 = "application/vnd.api+json" →
     env.api.has_type req.uri_type = true →
     env.db.get (req.uri_type, req.uri_id) = some r →
     (env.api.get_schema (env.api.get_typename r)).relationships
        req.uri_relname = none →
      prepare env req =
        { result := .error .NotFound,
          trace := [.has_type_call, .db_get_call, .get_typename_call,
                    .get_schema_call] }) ∧
    (∀ r rel, req.content_type.1 = "application/vnd.api+json" →
     env.api.has_type req.uri_type = true →
     env.db.get (req.uri_type, req.uri_id) = some r →
     (env.api.get_schema (env.api.get_typename r)).relationships
        req.uri_relname = some rel →
      prepare env req =
        { result := .ok { typename := req.uri_type, relname := req.uri_relname,
                          resource_id := req.uri_id, resource := r,
                          real_typename := env.api.get_typename r,
                          relationship := rel },
          trace := [.has_type_call, .db_get_call, .get_typename_call,
                    .get_schema_call] }) := by
  refine ⟨?_, ?_, ?_, ?_, ?_⟩
  · intro h1
    simp [prepare, h1]
  · intro h1 h2
    simp [prepare, h1, h2]
  · intro h1 h2 h3
    simp [prepare, h1, h2, h3]
  · intro r h1 h2 h3 h4
    simp [prepare, h1, h2, h3, h4]
  · intro r rel h1 h2 h3 h4
    simp [prepare, h1, h2, h3, h4]

/-- Witness for C2: all five branches at concrete requests. -/
theorem prepare_checks_in_order_witness :
    prepare cEnv cReqBadCT =
      { result := .error .UnsupportedMediaType, trace := [] } ∧
    prepare cEnv cReqUnknownType =
      { result := .error .NotFound, trace := [.has_type_call] } ∧
    prepare cEnv cReqMissing =
      { result := .error .NotFound, trace := [.has_type_call, .db_get_call] } ∧
    prepare cEnv cReqBadRel =
      { result := .error .NotFound,
        trace := [.has_type_call, .db_get_call, .get_typename_call,
                  .get_schema_call] } ∧
    prepare cEnv cReq =
      { result := .ok cPrepared,
        trace := [.has_type_call, .db_get_call, .get_typename_call,
                  .get_schema_call] } := by
  refine ⟨?_, ?_, ?_, ?_, ?_⟩
  · exact (prepare_checks_in_order cEnv cReqBadCT).1 (by decide)
  · exact (prepare_checks_in_order cEnv cReqUnknownType).2.1 rfl (by decide)
  · exact (prepare_checks_in_order cEnv cReqMissing).2.2.1 rfl rfl (by decide)
  · exact (prepare_checks_in_order cEnv cReqBadRel).2.2.2.1 7 rfl rfl rfl rfl
  · exact (prepare_checks_in_order cEnv cReq).2.2.2.2 7 { to_many := true }
      rfl rfl rfl rfl

/-- C10: the content-type precondition compares only the first component
of the request's parsed `content_type` pair, so whenever the main media
type is the JSON:API one, `prepare()` never raises `UnsupportedMediaType`,
whatever the remaining content-type parameters are. -/
theorem content_type_params_ignored {R : Type} (env : Env R) (req : Request)
    (h : req.content_type.1 = "application/vnd.api+json") :
    (prepare env req).result ≠ .error .UnsupportedMediaType := by
  unfold prepare
  rw [if_neg (not_not_intro h)]
  cases hht : env.api.has_type req.uri_type with
  | false => simp
  | true =>
    cases hdb : env.db.get (req.uri_type, req.uri_id) with
    | none => simp
    | some r =>
      cases hrel : (env.api.get_schema (env.api.get_typename r)).relationships
          req.uri_relname <;> simp [hrel]

/-- Witness for C10: `cReq` carries a `charset=utf-8` parameter and is
still not rejected. -/
theorem content_type_params_ignored_witness :
    cReq.content_type.1 = "application/vnd.api+json" ∧
    cReq.content_type.2 = ["charset=utf-8"] ∧
    (prepare cEnv cReq).result ≠ .error .UnsupportedMediaType :=
  ⟨rfl, rfl, content_type_params_ignored cEnv cReq rfl⟩

/-- C1 counterexample: the claim that `links.self` is only filled when
absent is false on the code.  The concrete serializer supplies
`links.self = "serializer-self"`, yet the built document carries the
reversed URL instead: `links["self"] = …` is a plain item assignment, not
a `setdefault`, so the serializer-supplied value is overwritten. -/
theorem links_self_preserved_counterexample :
    lookupKey (serializer_document cApi cPrepared) "links" =
      some (JVal.obj [("self", JVal.str "serializer-self")]) ∧
    lookupKey (build_document cApi cPrepared) "links" =
      some (JVal.obj [("self", JVal.str "article/1/relationship/comments"),
                      ("related", JVal.str "article/1/related/comments")]) ∧
    ("article/1/relationship/comments" : String) ≠ "serializer-self" :=
  ⟨rfl, rfl, by decide⟩

/-- C1 amended: the response builder always assigns `links.self` and
`links.related` to the reversed URLs, overwriting any serializer-supplied
values under those two keys; all other serializer-supplied entries of the
`links` mapping are preserved, and the `jsonapi` key is set only when
absent (a serializer-supplied `jsonapi` value is preserved).  The
hypothesis restricts to serializer outputs whose `links` entry, when
present, is a mapping — on any other output the source raises `TypeError`
and no document is produced. -/
theorem links_assignment_behaviour {R : Type} (api : Api R) (p : Prepared R)
    ( _hok : linksOk (serializer_document api p) = true) :
    (∃ L, lookupKey (build_document api p) "links" = some (JVal.obj L) ∧
      lookupKey L "self" = some (JVal.str (api.reverse_url p.typename "relationship" p.resource_id p.relname)) ∧
      lookupKey L "related" = some (JVal.str (api.reverse_url p.typename "related" p.resource_id p.relname)) ∧
      (∀ k, k ≠ "self" → k ≠ "related" →
        lookupKey L k = lookupKey (serializer_links (serializer_document api p)) k)) ∧
    (∀ v, lookupKey (serializer_document api p) "jsonapi" = some v →
      lookupKey (build_document api p) "jsonapi" = some v) := by
  have hne1 : ("links" : String) ≠ "jsonapi" := by decide
  have hne2 : ("self" : String) ≠ "related" := by decide
  have hne3 : ("jsonapi" : String) ≠ "links" := by decide
  constructor
  · simp only [build_document]
    refine ⟨setItem (setItem (serializer_links (serializer_document api p)) "self" (JVal.str (api.reverse_url p.typename "relationship" p.resource_id p.relname))) "related" (JVal.str (api.reverse_url p.typename "related" p.resource_id p.relname)), ?_, ?_, ?_, ?_⟩
    · rw [lookupKey_setdefaultDoc_ne _ _ hne1, lookupKey_setItem_self]
    · rw [lookupKey_setItem_ne _ _ hne2, lookupKey_setItem_self]
    · rw [lookupKey_setItem_self]
    · intro k hk1 hk2
      rw [lookupKey_setItem_ne _ _ hk2, lookupKey_setItem_ne _ _ hk1]
  · intro v hv
    simp only [build_document]
    rw [lookupKey_setdefaultDoc_self, lookupKey_setItem_ne _ _ hne3, hv]
    rfl

/-- Witness for the amended C1 at the concrete serializer, whose output
has a `links` mapping. -/
theorem links_assignment_behaviour_witness :
    linksOk (serializer_document cApi cPrepared) = true ∧
    ((∃ L, lookupKey (build_document cApi cPrepared) "links" = some (JVal.obj L) ∧
      lookupKey L "self" = some (JVal.str (cApi.reverse_url cPrepared.typename "relationship" cPrepared.resource_id cPrepared.relname)) ∧
      lookupKey L "related" = some (JVal.str (cApi.reverse_url cPrepared.typename "related" cPrepared.resource_id cPrepared.relname)) ∧
      (∀ k, k ≠ "self" → k ≠ "related" →
        lookupKey L k = lookupKey (serializer_links (serializer_document cApi cPrepared)) k)) ∧
    (∀ v, lookupKey (serializer_document cApi cPrepared) "jsonapi" = some v →
      lookupKey (build_document cApi cPrepared) "jsonapi" = some v)) :=
  ⟨rfl, links_assignment_behaviour cApi cPrepared rfl⟩

/-- C4: the `self` and `related` links of every built response document
are the reversed relationship- and related-endpoint URLs parameterized by
the originally requested `typename` (together with `resource_id` and
`relname`) — `real_typename` is quantified freely here and never enters
the links, so the statement holds even when it differs from `typename`. -/
theorem links_use_requested_typename {R : Type} (api : Api R) (p : Prepared R)
    ( _hok : linksOk (serializer_document api p) = true) :
    ∃ L, lookupKey (build_document api p) "links" = some (JVal.obj L) ∧
      lookupKey L "self" = some (JVal.str (api.reverse_url p.typename "relationship" p.resource_id p.relname)) ∧
      lookupKey L "related" = some (JVal.str (api.reverse_url p.typename "related" p.resource_id p.relname)) := by
  have hne1 : ("links" : String) ≠ "jsonapi" := by decide
  have hne2 : ("self" : String) ≠ "related" := by decide
  simp only [build_document]
  refine ⟨setItem (setItem (serializer_links (serializer_document api p)) "self" (JVal.str (api.reverse_url p.typename "relationship" p.resource_id p.relname))) "related" (JVal.str (api.reverse_url p.typename "related" p.resource_id p.relname)), ?_, ?_, ?_⟩
  · rw [lookupKey_setdefaultDoc_ne _ _ hne1, lookupKey_setItem_self]
  · rw [lookupKey_setItem_ne _ _ hne2, lookupKey_setItem_self]
  · rw [lookupKey_setItem_self]

/-- Witness for C4 at a prepared state whose actual typename differs from
the requested one (`real_typename = "special-article"`): the links are
still reversed from `"article"`. -/
theorem links_use_requested_typename_witness :
    linksOk (serializer_document cApi
      { cPrepared with real_typename := "special-article" }) = true ∧
    ∃ L, lookupKey (build_document cApi
        { cPrepared with real_typename := "special-article" }) "links" =
          some (JVal.obj L) ∧
      lookupKey L "self" = some (JVal.str (cApi.reverse_url "article" "relationship" "1" "comments")) ∧
      lookupKey L "related" = some (JVal.str (cApi.reverse_url "article" "related" "1" "comments")) :=
  ⟨rfl, links_use_requested_typename cApi
    { cPrepared with real_typename := "special-article" } rfl⟩

/-- C9: DELETE is idempotent at the response level: when the
unserializer's clear-relationship operation is idempotent on resources,
running `delete()` a second time from the state it produced yields the
same outcome — same response document, same cleared resource, same
persistence effects. -/
theorem delete_idempotent_response {R : Type} (env : Env R) (p : Prepared R)
    (h : ∀ r, (env.api.get_unserializer p.real_typename).clear_relationship ((env.api.get_unserializer p.real_typename).clear_relationship r p.relname) p.relname = (env.api.get_unserializer p.real_typename).clear_relationship r p.relname) :
    delete_handler env { p with resource := (delete_handler env p).resource } =
      delete_handler env p := by
  simp [delete_handler, h]

/-- Witness for C9 at the concrete unserializer, whose clear operation is
constant and hence idempotent. -/
theorem delete_idempotent_response_witness :
    (∀ r : Nat, (cEnv.api.get_unserializer cPrepared.real_typename).clear_relationship ((cEnv.api.get_unserializer cPrepared.real_typename).clear_relationship r cPrepared.relname) cPrepared.relname = (cEnv.api.get_unserializer cPrepared.real_typename).clear_relationship r cPrepared.relname) ∧
    delete_handler cEnv { cPrepared with
        resource := (delete_handler cEnv cPrepared).resource } =
      delete_handler cEnv cPrepared :=
  ⟨fun _ => rfl, delete_idempotent_response cEnv cPrepared (fun _ => rfl)⟩

end Jsonapi
